import Mathlib

/-!
Shallow embedding of the enviro-governance-platform backend core:
`GovernanceService` (src/backend/app/services/governance_service.py),
`RemediationService` (src/backend/app/services/remediation_service.py)
and the relevant Pydantic validators (src/backend/app/schemas.py).

Python floats are idealized as exact numbers: scores and weights are ℚ;
values that pass through `statistics.stdev` (a square root) live in ℝ.
Narrative-only fields of the responses (`explanation`, free-text
`risks`/`implementation_steps`) and wall-clock timestamps carry no
numeric contract and are omitted from the embedded records.
-/

namespace Enviro

/-- `schemas.VotingVector`: one voting dimension (name, score, optional weight). -/
structure VotingVector where
  name : String
  score : ℚ
  weight : Option ℚ
deriving DecidableEq, Repr

/-- `schemas.VoterWeight`: one stakeholder (id, optional name, weight). -/
structure VoterWeight where
  id : String
  name : Option String
  weight : ℚ
deriving DecidableEq, Repr

/-- `statistics.mean` over an idealized float list (callers guard non-emptiness;
ℚ division by zero yields 0 on the unreachable empty case). -/
def listMean (xs : List ℚ) : ℚ := xs.sum / xs.length

/-- Python `v.weight or 1.0` (governance_service.py lines 68-69): `None` and
`0.0` are both falsy, so each coalesces to `1.0`. -/
def orOne : Option ℚ → ℚ
  | none => 1
  | some w => if w = 0 then 1 else w

/-- `GovernanceService._calculate_aggregate_score` (lines 59-73). -/
def calculate_aggregate_score (vectors : List VotingVector) : ℚ :=
  if vectors = [] then 0
  else
    let has_weights := vectors.any (fun v => v.weight.isSome)
    if has_weights then
      let total_weight := (vectors.map (fun v => orOne v.weight)).sum
      let weighted_sum := (vectors.map (fun v => v.score * orOne v.weight)).sum
      if 0 < total_weight then weighted_sum / total_weight else 0
    else
      listMean (vectors.map (fun v => v.score))

/-- Sample variance with Bessel correction (divisor `n - 1`), the radicand of
Python `statistics.stdev`. Callers guard `2 ≤ n`. -/
def sampleVariance (xs : List ℚ) : ℚ :=
  (xs.map (fun x => (x - listMean xs) ^ 2)).sum / ((xs.length : ℚ) - 1)

/-- Python `statistics.stdev`: the square root of the Bessel-corrected sample
variance. -/
noncomputable def stdev (xs : List ℚ) : ℝ := Real.sqrt (sampleVariance xs)

/-- Population variance (divisor `n`), the radicand of `statistics.pstdev`;
used only to state the spec-side formula that names the population deviation. -/
def popVariance (xs : List ℚ) : ℚ :=
  (xs.map (fun x => (x - listMean xs) ^ 2)).sum / (xs.length : ℚ)

/-- Python `round(x, 3)` on idealized reals: nearest multiple of 1/1000,
ties to even. -/
noncomputable def pythonRound3 (x : ℝ) : ℝ :=
  let n : ℤ := ⌊1000 * x⌋
  let f : ℝ := 1000 * x - n
  let k : ℤ :=
    if f < 1 / 2 then n
    else if 1 / 2 < f then n + 1
    else if n % 2 = 0 then n else n + 1
  (k : ℝ) / 1000

/-- The `try ... except: return 0.5` wrapper of governance_service.py lines
87-93: `body` is the outcome of the arithmetic inside the `try` block
(`Except.ok v` when it evaluates to `v`, `Except.error e` when it raises `e`);
the bare `except:` maps any raised fault to the plain value `0.5`. -/
noncomputable def tryStdExcept (body : Except String ℝ) : ℝ :=
  match body with
  | Except.ok v => v
  | Except.error _ => 1 / 2

/-- `GovernanceService._calculate_consensus` (lines 75-93). The arithmetic in
the `try` block is total in the model, hence wrapped as `Except.ok`. -/
noncomputable def calculate_consensus (vectors : List VotingVector)
    (_voters : List VoterWeight) : ℝ :=
  if vectors.length < 2 then 1
  else
    let scores := vectors.map (fun v => v.score)
    let avg := listMean scores
    if avg = 0 then 1
    else
      tryStdExcept (Except.ok
        (pythonRound3 (max 0 (1 - (if 1 < scores.length then stdev scores else 0) / 2))))

/-- `GovernanceService._generate_recommendation` (lines 95-103). -/
noncomputable def generate_recommendation (aggregate_score : ℝ) (consensus : ℝ) : String :=
  if aggregate_score > 6 / 10 ∧ consensus > 6 / 10 then "APPROVE"
  else if aggregate_score < -(4 / 10) ∨ consensus < 3 / 10 then "REJECT"
  else "NEEDS_REVIEW"

/-- `schemas.GovernanceVoteResponse`, numeric/structured fields. -/
structure GovernanceVoteResponse where
  policy_id : String
  aggregate_score : ℝ
  vector_breakdown : List (String × ℚ)
  voter_consensus : ℝ
  recommendation : String
  confidence : ℝ

/-- `GovernanceService.aggregate_votes` (lines 21-57). -/
noncomputable def aggregate_votes (policy_id : String) (voters : List VoterWeight)
    (vectors : List VotingVector) : GovernanceVoteResponse :=
  let aggregate_score : ℝ := (calculate_aggregate_score vectors : ℚ)
  let voter_consensus := calculate_consensus vectors voters
  { policy_id := policy_id
    aggregate_score := aggregate_score
    vector_breakdown := vectors.map (fun v => (v.name, v.score))
    voter_consensus := voter_consensus
    recommendation := generate_recommendation aggregate_score voter_consensus
    confidence := min (95 / 100) (1 / 2 + voter_consensus * (45 / 100)) }

/-- `GovernanceVoteRequest.validate_voter_weights` (schemas.py lines 113-118):
raise `ValueError` when `|sum - 1| > 0.01`, otherwise return the list. -/
def validate_voter_weights (v : List VoterWeight) : Except String (List VoterWeight) :=
  let total := (v.map (fun voter => voter.weight)).sum
  if 1 / 100 < |total - 1| then Except.error "Voter weights must sum to 1.0"
  else Except.ok v

/-- `schemas.RemediationStrategy`, numeric/identifying fields (free-text
`risks`, `explanation`, `implementation_steps` carry no claim). -/
structure RemediationStrategy where
  agent_type : String
  name : String
  effectiveness : ℚ
  timeline_days : ℕ
  cost_estimate : ℚ
deriving DecidableEq, Repr

/-- `RemediationService._fungal_remediation` (remediation_service.py lines 83-107). -/
def fungal_remediation (budget_tier : String) : RemediationStrategy :=
  { agent_type := "fungal_remediation"
    name := "Mycoremediation using Pleurotus & Trametes Species"
    effectiveness := if budget_tier = "low" then 75/100
      else if budget_tier = "medium" then 85/100 else 92/100
    timeline_days := 90
    cost_estimate := if budget_tier = "low" then 30000
      else if budget_tier = "medium" then 50000 else 80000 }

/-- `RemediationService._bacterial_remediation` (lines 109-133). -/
def bacterial_remediation (budget_tier : String) : RemediationStrategy :=
  { agent_type := "bacterial_consortium"
    name := "Nitrifying & Denitrifying Bacterial Consortium"
    effectiveness := if budget_tier = "low" then 70/100
      else if budget_tier = "medium" then 78/100 else 88/100
    timeline_days := 60
    cost_estimate := if budget_tier = "low" then 25000
      else if budget_tier = "medium" then 40000 else 65000 }

/-- `RemediationService._crispr_remediation` (lines 135-156): constants
independent of the budget tier. -/
def crispr_remediation (_budget_tier : String) : RemediationStrategy :=
  { agent_type := "crispr_remediation"
    name := "CRISPR-Engineered Heavy Metal Bioaccumulators"
    effectiveness := 95/100
    timeline_days := 120
    cost_estimate := 120000 }

/-- `RemediationService._hybrid_remediation` (lines 158-182). -/
def hybrid_remediation (budget_tier : String) : RemediationStrategy :=
  { agent_type := "hybrid_remediation"
    name := "Integrated Fungal-Bacterial-Plant Remediation"
    effectiveness := if budget_tier = "low" then 82/100
      else if budget_tier = "medium" then 90/100 else 97/100
    timeline_days := 150
    cost_estimate := if budget_tier = "low" then 45000
      else if budget_tier = "medium" then 75000 else 130000 }

/-- `RemediationService._generate_agent_strategies` (lines 56-81): catalog
order is fungal, bacterial, (crispr when medium/high), hybrid. -/
def generate_agent_strategies (_pollution_description _site_type budget_tier : String) :
    List RemediationStrategy :=
  [fungal_remediation budget_tier, bacterial_remediation budget_tier]
    ++ (if budget_tier = "medium" ∨ budget_tier = "high"
        then [crispr_remediation budget_tier] else [])
    ++ [hybrid_remediation budget_tier]

/-- Stable insertion into a list already sorted by descending effectiveness:
the new element goes after every earlier element of greater-or-equal key, as
Python's stable `sorted(..., reverse=True)` places it. -/
def insertDescEff (x : RemediationStrategy) : List RemediationStrategy → List RemediationStrategy
  | [] => [x]
  | y :: ys =>
      if x.effectiveness ≤ y.effectiveness then y :: insertDescEff x ys
      else x :: y :: ys

/-- Python `sorted(strategies, key=lambda x: x.effectiveness, reverse=True)`:
stable descending sort by effectiveness (remediation_service.py lines 38-42). -/
def sortDescEff (xs : List RemediationStrategy) : List RemediationStrategy :=
  xs.foldr insertDescEff []

/-- `schemas.RemediationResponse`, numeric/structured fields. -/
structure RemediationResponse where
  strategies : List RemediationStrategy
  recommended_order : List ℕ
  total_timeline_days : ℕ
  combined_cost : ℚ
deriving DecidableEq, Repr

/-- `RemediationService.generate_strategies` (lines 21-54). -/
def generate_strategies (pollution_description site_type _location budget_tier : String) :
    RemediationResponse :=
  let strategies_sorted :=
    sortDescEff (generate_agent_strategies pollution_description site_type budget_tier)
  { strategies := strategies_sorted
    recommended_order := List.range strategies_sorted.length
    total_timeline_days := (strategies_sorted.map (fun s => s.timeline_days)).sum
    combined_cost := (strategies_sorted.map (fun s => s.cost_estimate)).sum }

/-! ### Helper lemmas -/

lemma tryStdExcept_ok (v : ℝ) : tryStdExcept (Except.ok v) = v := rfl

lemma calculate_consensus_of_short (vs : List VotingVector) (voters : List VoterWeight)
    (h : vs.length < 2) : calculate_consensus vs voters = 1 := by
  simp only [calculate_consensus]
  rw [if_pos h]

lemma calculate_consensus_of_mean_zero (vs : List VotingVector) (voters : List VoterWeight)
    (h : ¬ vs.length < 2) (hm : listMean (vs.map fun v => v.score) = 0) :
    calculate_consensus vs voters = 1 := by
  simp only [calculate_consensus]
  rw [if_neg h, if_pos hm]

lemma calculate_consensus_of_mean_ne_zero (vs : List VotingVector) (voters : List VoterWeight)
    (h2 : 2 ≤ vs.length) (hm : listMean (vs.map fun v => v.score) ≠ 0) :
    calculate_consensus vs voters
      = pythonRound3 (max 0 (1 - stdev (vs.map fun v => v.score) / 2)) := by
  simp only [calculate_consensus]
  rw [if_neg (by omega), if_neg hm, if_pos (by simpa using by omega : 1 < (vs.map fun v => v.score).length)]
  rfl

lemma pythonRound3_eq_low (x : ℝ) (n : ℤ) (h1 : (n : ℝ) ≤ 1000 * x)
    (h2 : 1000 * x < (n : ℝ) + 1 / 2) : pythonRound3 x = (n : ℝ) / 1000 := by
  have hf : ⌊1000 * x⌋ = n := by
    rw [Int.floor_eq_iff]
    constructor
    · exact h1
    · linarith
  simp only [pythonRound3, hf]
  rw [if_pos (by linarith : 1000 * x - (n : ℝ) < 1 / 2)]

lemma pythonRound3_eq_high (x : ℝ) (n : ℤ) (h1 : (n : ℝ) + 1 / 2 < 1000 * x)
    (h2 : 1000 * x < (n : ℝ) + 1) : pythonRound3 x = ((n : ℝ) + 1) / 1000 := by
  have hf : ⌊1000 * x⌋ = n := by
    rw [Int.floor_eq_iff]
    constructor
    · linarith
    · linarith
  simp only [pythonRound3, hf]
  rw [if_neg (by linarith : ¬ 1000 * x - (n : ℝ) < 1 / 2),
      if_pos (by linarith : 1 / 2 < 1000 * x - (n : ℝ))]
  push_cast
  ring

lemma pythonRound3_mem (x : ℝ) (h0 : 0 ≤ x) (h1 : x ≤ 1) :
    0 ≤ pythonRound3 x ∧ pythonRound3 x ≤ 1 := by
  have hxlo : (0 : ℝ) ≤ 1000 * x := by linarith
  have hxhi : 1000 * x ≤ 1000 := by linarith
  have hn0 : 0 ≤ ⌊1000 * x⌋ := by
    rw [Int.le_floor]
    exact_mod_cast hxlo
  have hnfl : (⌊1000 * x⌋ : ℝ) ≤ 1000 * x := Int.floor_le _
  have hn1000 : ⌊1000 * x⌋ ≤ 1000 := by
    have : ((⌊1000 * x⌋ : ℤ) : ℝ) ≤ ((1000 : ℤ) : ℝ) := by push_cast; linarith
    exact_mod_cast this
  have hb : ∀ k : ℤ, 0 ≤ k → k ≤ 1000 → 0 ≤ (k : ℝ) / 1000 ∧ (k : ℝ) / 1000 ≤ 1 := by
    intro k hk0 hk1
    constructor
    · positivity
    · rw [div_le_one (by norm_num)]
      exact_mod_cast hk1
  have hflt : 1000 * x - (⌊1000 * x⌋ : ℝ) < 1 := by
    have := Int.lt_floor_add_one (1000 * x)
    linarith
  simp only [pythonRound3]
  split_ifs with hlt hgt heven
  · exact hb _ hn0 hn1000
  · refine hb _ (by omega) ?_
    have : (⌊1000 * x⌋ : ℝ) + 1 / 2 < 1000 := by linarith
    have h2 : ((⌊1000 * x⌋ : ℤ) : ℝ) < ((1000 : ℤ) : ℝ) := by push_cast; linarith
    have h3 : ⌊1000 * x⌋ < (1000 : ℤ) := by exact_mod_cast h2
    omega
  · exact hb _ hn0 hn1000
  · refine hb _ (by omega) ?_
    have hfe : 1000 * x - (⌊1000 * x⌋ : ℝ) = 1 / 2 := by
      rcases lt_trichotomy (1000 * x - (⌊1000 * x⌋ : ℝ)) (1 / 2) with h | h | h
      · exact absurd h hlt
      · exact h
      · exact absurd h hgt
    have h2 : ((⌊1000 * x⌋ : ℤ) : ℝ) < ((1000 : ℤ) : ℝ) := by push_cast; linarith
    have h3 : ⌊1000 * x⌋ < (1000 : ℤ) := by exact_mod_cast h2
    omega

lemma calculate_consensus_mem (vs : List VotingVector) (voters : List VoterWeight) :
    0 ≤ calculate_consensus vs voters ∧ calculate_consensus vs voters ≤ 1 := by
  by_cases hlen : vs.length < 2
  · rw [calculate_consensus_of_short vs voters hlen]
    norm_num
  · by_cases hm : listMean (vs.map fun v => v.score) = 0
    · rw [calculate_consensus_of_mean_zero vs voters hlen hm]
      norm_num
    · rw [calculate_consensus_of_mean_ne_zero vs voters (by omega) hm]
      refine pythonRound3_mem _ (le_max_left _ _) (max_le (by norm_num) ?_)
      have : (0 : ℝ) ≤ stdev (vs.map fun v => v.score) := Real.sqrt_nonneg _
      linarith

/-- The two-vector input with scores -1.0 and 1.0 and no per-vector weights. -/
def maxSpreadVectors : List VotingVector :=
  [⟨"environmental_impact", -1, none⟩, ⟨"health_benefit", 1, none⟩]

/-! ### Claim theorems -/

/-- C1, counterexample: for scores [-1.0, 1.0] the consensus computation does
NOT return 0.0 — the mean of the scores is exactly 0, so the mean-zero
short-circuit of `_calculate_consensus` fires and returns 1.0. -/
theorem maxSpread_consensus_ne_zero : calculate_consensus maxSpreadVectors [] ≠ 0 := by
  rw [calculate_consensus_of_mean_zero maxSpreadVectors [] (by decide)
    (by norm_num [maxSpreadVectors, listMean])]
  norm_num

/-- C1, amended: for the two-vector input whose scores are -1.0 and 1.0
(maximal spread, no per-vector weights), the consensus computation returns
voter_consensus = 1.0, because the mean of the scores is exactly 0 and the
mean-zero short-circuit fires before the standard-deviation formula. -/
theorem maxSpread_consensus_eq_one : calculate_consensus maxSpreadVectors [] = 1 :=
  calculate_consensus_of_mean_zero maxSpreadVectors [] (by decide)
    (by norm_num [maxSpreadVectors, listMean])

/-- C9, counterexample: an internal fault raised inside the consensus
standard-deviation block does not propagate — the bare `except:` handler maps
it to 0.5, making a fault indistinguishable from a genuine consensus of 0.5. -/
theorem fault_swallowed_counterexample :
    tryStdExcept (Except.error "ZeroDivisionError") = tryStdExcept (Except.ok (1 / 2)) := rfl

/-- C9, amended: the vote-aggregation core is total on inputs satisfying the
preconditions (every non-faulting run returns its computed value), but an
internal fault inside the consensus try-block is silently swallowed: the bare
`except:` converts any raised fault into the normal-looking consensus value
0.5 instead of propagating it. -/
theorem fault_swallowed (e : String) (v : ℝ) :
    tryStdExcept (Except.error e) = 1 / 2 ∧ tryStdExcept (Except.ok v) = v := ⟨rfl, rfl⟩

/-- C7: voter-weight validation rejects weight sums 0.98 and 1.02 and accepts
weight sums 0.99 and 1.01 — the ±0.01 tolerance around 1.0 is inclusive at
the boundary. -/
theorem voter_weight_tolerance (voters : List VoterWeight) :
    (((voters.map fun voter => voter.weight).sum = 98 / 100 ∨
      (voters.map fun voter => voter.weight).sum = 102 / 100) →
        ∃ msg, validate_voter_weights voters = Except.error msg) ∧
    (((voters.map fun voter => voter.weight).sum = 99 / 100 ∨
      (voters.map fun voter => voter.weight).sum = 101 / 100) →
        validate_voter_weights voters = Except.ok voters) := by
  constructor
  · rintro (h | h)
    · refine ⟨"Voter weights must sum to 1.0", ?_⟩
      simp only [validate_voter_weights, h]
      rw [if_pos (by rw [lt_abs]; exact Or.inr (by norm_num))]
    · refine ⟨"Voter weights must sum to 1.0", ?_⟩
      simp only [validate_voter_weights, h]
      rw [if_pos (by rw [lt_abs]; exact Or.inl (by norm_num))]
  · rintro (h | h) <;>
      · simp only [validate_voter_weights, h]
        rw [if_neg (not_lt.mpr (abs_le.mpr ⟨by norm_num, by norm_num⟩))]

/-- Witness for C7 at concrete voter lists with weight sums 0.98 and 0.99. -/
theorem voter_weight_tolerance_witness :
    (([⟨"gov", none, 49/50⟩] : List VoterWeight).map fun voter => voter.weight).sum
        = 98 / 100 ∧
    (∃ msg, validate_voter_weights [⟨"gov", none, 49/50⟩] = Except.error msg) ∧
    (([⟨"gov", none, 1/2⟩, ⟨"ngo", none, 49/100⟩] : List VoterWeight).map
        fun voter => voter.weight).sum = 99 / 100 ∧
    validate_voter_weights [⟨"gov", none, 1/2⟩, ⟨"ngo", none, 49/100⟩]
        = Except.ok [⟨"gov", none, 1/2⟩, ⟨"ngo", none, 49/100⟩] :=
  ⟨by norm_num,
   (voter_weight_tolerance [⟨"gov", none, 49/50⟩]).1 (Or.inl (by norm_num)),
   by norm_num,
   (voter_weight_tolerance [⟨"gov", none, 1/2⟩, ⟨"ngo", none, 49/100⟩]).2
     (Or.inl (by norm_num))⟩

/-- C3: the recommendation is decided by the first matching rule in priority
order — APPROVE when aggregate > 0.6 and consensus > 0.6, otherwise REJECT
when aggregate < -0.4 or consensus < 0.3, otherwise NEEDS_REVIEW; the strict
comparisons do not fire at the exact boundaries 0.6, -0.4 and 0.3. -/
theorem recommendation_rules :
    (∀ a c : ℝ,
      (generate_recommendation a c = "APPROVE" ↔ a > 6 / 10 ∧ c > 6 / 10) ∧
      (generate_recommendation a c = "REJECT" ↔
        ¬(a > 6 / 10 ∧ c > 6 / 10) ∧ (a < -(4 / 10) ∨ c < 3 / 10)) ∧
      (generate_recommendation a c = "NEEDS_REVIEW" ↔
        ¬(a > 6 / 10 ∧ c > 6 / 10) ∧ ¬(a < -(4 / 10) ∨ c < 3 / 10))) ∧
    generate_recommendation (6 / 10) 1 = "NEEDS_REVIEW" ∧
    generate_recommendation (-(4 / 10)) (1 / 2) = "NEEDS_REVIEW" ∧
    generate_recommendation 1 (3 / 10) = "NEEDS_REVIEW" := by
  refine ⟨fun a c => ?_, ?_, ?_, ?_⟩
  · simp only [generate_recommendation]
    split_ifs with h1 h2 <;> simp_all
  · simp only [generate_recommendation]
    rw [if_neg (by norm_num), if_neg (by norm_num)]
  · simp only [generate_recommendation]
    rw [if_neg (by norm_num), if_neg (by norm_num)]
  · simp only [generate_recommendation]
    rw [if_neg (by norm_num), if_neg (by norm_num)]

/-- C8: budget tier "low" yields exactly 3 strategies (fungal, bacterial,
hybrid; no CRISPR) and tiers "medium"/"high" exactly 4 (CRISPR included);
the returned strategies are sorted descending by effectiveness (stable sort,
ties keeping catalog order), recommended_order is the identity list over the
sorted strategies, and the timeline/cost totals are the arithmetic sums of
the per-strategy timeline_days and cost_estimate. -/
theorem strategy_ranking_by_budget_tier (pd st loc : String) :
    ((generate_strategies pd st loc "low").strategies.map (fun s => s.agent_type) =
        ["hybrid_remediation", "fungal_remediation", "bacterial_consortium"] ∧
      (generate_strategies pd st loc "low").strategies.Pairwise
        (fun a b => b.effectiveness ≤ a.effectiveness) ∧
      (generate_strategies pd st loc "low").recommended_order = [0, 1, 2] ∧
      (generate_strategies pd st loc "low").total_timeline_days = 150 + 90 + 60 ∧
      (generate_strategies pd st loc "low").combined_cost = 45000 + 30000 + 25000) ∧
    ((generate_strategies pd st loc "medium").strategies.map (fun s => s.agent_type) =
        ["crispr_remediation", "hybrid_remediation", "fungal_remediation",
          "bacterial_consortium"] ∧
      (generate_strategies pd st loc "medium").strategies.Pairwise
        (fun a b => b.effectiveness ≤ a.effectiveness) ∧
      (generate_strategies pd st loc "medium").recommended_order = [0, 1, 2, 3] ∧
      (generate_strategies pd st loc "medium").total_timeline_days = 120 + 150 + 90 + 60 ∧
      (generate_strategies pd st loc "medium").combined_cost
        = 120000 + 75000 + 50000 + 40000) ∧
    ((generate_strategies pd st loc "high").strategies.map (fun s => s.agent_type) =
        ["hybrid_remediation", "crispr_remediation", "fungal_remediation",
          "bacterial_consortium"] ∧
      (generate_strategies pd st loc "high").strategies.Pairwise
        (fun a b => b.effectiveness ≤ a.effectiveness) ∧
      (generate_strategies pd st loc "high").recommended_order = [0, 1, 2, 3] ∧
      (generate_strategies pd st loc "high").total_timeline_days = 150 + 120 + 90 + 60 ∧
      (generate_strategies pd st loc "high").combined_cost
        = 130000 + 120000 + 80000 + 65000) := by
  refine ⟨⟨?_, ?_, ?_, ?_, ?_⟩, ⟨?_, ?_, ?_, ?_, ?_⟩, ⟨?_, ?_, ?_, ?_, ?_⟩⟩ <;>
    (simp [generate_strategies, generate_agent_strategies, fungal_remediation,
      bacterial_remediation, crispr_remediation, hybrid_remediation, sortDescEff,
      insertDescEff, List.range_succ]
     try norm_num [insertDescEff, List.range_succ])

lemma orOne_pos (w : Option ℚ) (hw : ∀ x ∈ w, 0 ≤ x) : 0 < orOne w := by
  cases w with
  | none => norm_num [orOne]
  | some x =>
    simp only [orOne]
    split_ifs with hx
    · norm_num
    · exact lt_of_le_of_ne (hw x rfl) (Ne.symm hx)

lemma sum_orOne_pos (vs : List VotingVector) (hne : vs ≠ [])
    (hw : ∀ v ∈ vs, ∀ w ∈ v.weight, 0 ≤ w) :
    0 < (vs.map fun v => orOne v.weight).sum := by
  cases vs with
  | nil => exact absurd rfl hne
  | cons a l =>
    simp only [List.map_cons, List.sum_cons]
    have ha : 0 < orOne a.weight := orOne_pos _ (fun x hx => hw a (by simp) x hx)
    have hl : 0 ≤ (l.map fun v => orOne v.weight).sum := by
      refine List.sum_nonneg ?_
      intro x hx
      obtain ⟨v, hv, rfl⟩ := List.mem_map.mp hx
      exact (orOne_pos _ (fun y hy => hw v (by simp [hv]) y hy)).le
    linarith

/-- The weighted-mean formula worded by the claim (to be compared with
`calculate_aggregate_score` from the source): only a MISSING (null) weight is
replaced by 1.0; a present weight is used as given. -/
def claimedWeight : Option ℚ → ℚ
  | none => 1
  | some w => w

/-- Aggregate score as the claim words it: when any vector carries a non-null
weight, `Σ(score_i * weight_i) / Σ(weight_i)` with missing weights as 1.0;
otherwise the unweighted mean. -/
def aggregate_score_per_claim (vectors : List VotingVector) : ℚ :=
  if vectors.any (fun v => v.weight.isSome) then
    (vectors.map (fun v => v.score * claimedWeight v.weight)).sum /
      (vectors.map (fun v => claimedWeight v.weight)).sum
  else
    listMean (vectors.map (fun v => v.score))

/-- Aggregate score as the amended claim words it: a missing (null) weight
AND an explicit weight of 0.0 are both treated as 1.0 (Python's
`weight or 1.0` coalesces every falsy weight). -/
def aggregate_score_per_amended_claim (vectors : List VotingVector) : ℚ :=
  if vectors.any (fun v => v.weight.isSome) then
    (vectors.map (fun v => v.score * orOne v.weight)).sum /
      (vectors.map (fun v => orOne v.weight)).sum
  else
    listMean (vectors.map (fun v => v.score))

/-- Two schema-valid vectors, one weighted 0.5 and one weighted 0.0. -/
def zeroWeightVectors : List VotingVector :=
  [⟨"environmental_impact", 1, some (1/2)⟩, ⟨"health_benefit", -1, some 0⟩]

lemma zeroWeightVectors_ne_nil : zeroWeightVectors ≠ [] := by decide

/-- C4, counterexample: on a vector list containing an explicit weight 0.0 the
code's aggregate (-1/3, weight 0.0 coalesced to 1.0 by `weight or 1.0`)
differs from the claim's formula (1, weight 0.0 used as given). -/
theorem zero_weight_aggregate_counterexample :
    calculate_aggregate_score zeroWeightVectors = -(1/3) ∧
    aggregate_score_per_claim zeroWeightVectors = 1 ∧
    calculate_aggregate_score zeroWeightVectors ≠ aggregate_score_per_claim zeroWeightVectors := by
  have ha : calculate_aggregate_score zeroWeightVectors = -(1/3) := by
    simp only [calculate_aggregate_score]
    rw [if_neg zeroWeightVectors_ne_nil]
    norm_num [zeroWeightVectors, orOne, listMean]
  have hb : aggregate_score_per_claim zeroWeightVectors = 1 := by
    norm_num [aggregate_score_per_claim, zeroWeightVectors, claimedWeight, listMean]
  refine ⟨ha, hb, ?_⟩
  rw [ha, hb]
  norm_num

/-- C4, amended: for every non-empty, schema-valid vector list (weights in
[0,1] where present), the aggregate score equals the weighted mean with every
missing (null) weight AND every explicit 0.0 weight treated as 1.0 when any
vector carries a weight, else the unweighted mean. -/
theorem aggregate_score_matches_amended_formula (vs : List VotingVector) (hne : vs ≠ [])
    (hw : ∀ v ∈ vs, ∀ w ∈ v.weight, 0 ≤ w ∧ w ≤ 1) :
    calculate_aggregate_score vs = aggregate_score_per_amended_claim vs := by
  simp only [calculate_aggregate_score, aggregate_score_per_amended_claim]
  rw [if_neg hne]
  by_cases h : vs.any (fun v => v.weight.isSome)
  · rw [if_pos h, if_pos h,
      if_pos (sum_orOne_pos vs hne (fun v hv w hw' => (hw v hv w hw').1))]
  · rw [if_neg h, if_neg h]

/-- Witness for C4 (amended) at the concrete two-vector list with weights
0.5 and 0.0. -/
theorem aggregate_score_matches_amended_formula_witness :
    (zeroWeightVectors ≠ [] ∧
      ∀ v ∈ zeroWeightVectors, ∀ w ∈ v.weight, 0 ≤ w ∧ w ≤ 1) ∧
    calculate_aggregate_score zeroWeightVectors
      = aggregate_score_per_amended_claim zeroWeightVectors :=
  ⟨⟨by decide, by norm_num [zeroWeightVectors]⟩,
   aggregate_score_matches_amended_formula zeroWeightVectors (by decide)
     (by norm_num [zeroWeightVectors])⟩

/-- Three schema-valid unweighted vectors with scores 0.8, 0.2, 0.5: their
sample standard deviation is exactly 0.3, their population standard deviation
is √0.06 ≈ 0.245. -/
def spreadVectors : List VotingVector :=
  [⟨"environmental_impact", 4/5, none⟩, ⟨"health_benefit", 1/5, none⟩,
   ⟨"economic_cost", 1/2, none⟩]

/-- C2, amended: consensus is 1.0 for fewer than 2 vectors or when the score
mean is exactly 0; otherwise it is `max(0, 1 - s/2)` rounded to 3 decimal
places where `s` is the SAMPLE standard deviation (Bessel-corrected, divisor
n-1, Python `statistics.stdev`) of the vector scores. -/
theorem consensus_formula_amended (vs : List VotingVector) (voters : List VoterWeight) :
    (vs.length < 2 → calculate_consensus vs voters = 1) ∧
    (2 ≤ vs.length → listMean (vs.map fun v => v.score) = 0 →
      calculate_consensus vs voters = 1) ∧
    (2 ≤ vs.length → listMean (vs.map fun v => v.score) ≠ 0 →
      calculate_consensus vs voters
        = pythonRound3 (max 0 (1 - stdev (vs.map fun v => v.score) / 2))) :=
  ⟨fun h => calculate_consensus_of_short vs voters h,
   fun h2 hm => calculate_consensus_of_mean_zero vs voters (by omega) hm,
   fun h2 hm => calculate_consensus_of_mean_ne_zero vs voters h2 hm⟩

/-- Witness for C2 (amended) at the three-vector list with scores
0.8, 0.2, 0.5 (mean 0.5 ≠ 0). -/
theorem consensus_formula_amended_witness :
    (2 ≤ spreadVectors.length ∧ listMean (spreadVectors.map fun v => v.score) ≠ 0) ∧
    calculate_consensus spreadVectors []
      = pythonRound3 (max 0 (1 - stdev (spreadVectors.map fun v => v.score) / 2)) :=
  ⟨⟨by decide, by norm_num [spreadVectors, listMean]⟩,
   (consensus_formula_amended spreadVectors []).2.2 (by decide)
     (by norm_num [spreadVectors, listMean])⟩

/-- C2, counterexample: on scores [0.8, 0.2, 0.5] the code returns 0.850
(sample standard deviation 0.3), while the claim's population-standard-
deviation formula yields 0.878 — so the claim's "population standard
deviation" is wrong. -/
theorem consensus_population_std_counterexample :
    calculate_consensus spreadVectors []
      ≠ pythonRound3 (max 0
          (1 - Real.sqrt ((popVariance (spreadVectors.map fun v => v.score) : ℚ)) / 2)) := by
  have hlhs : calculate_consensus spreadVectors [] = 850 / 1000 := by
    rw [calculate_consensus_of_mean_ne_zero spreadVectors [] (by decide)
      (by norm_num [spreadVectors, listMean])]
    have hsv : sampleVariance (spreadVectors.map fun v => v.score) = 9/100 := by
      norm_num [sampleVariance, listMean, spreadVectors]
    have hstd : stdev (spreadVectors.map fun v => v.score) = 3/10 := by
      rw [stdev, hsv, show ((9/100 : ℚ) : ℝ) = (3/10)^2 by norm_num]
      exact Real.sqrt_sq (by norm_num)
    rw [hstd, max_eq_right (by norm_num)]
    have h := pythonRound3_eq_low (1 - (3:ℝ)/10/2) 850 (by push_cast; norm_num)
      (by push_cast; norm_num)
    rw [h]
    push_cast
    norm_num
  have hpv : popVariance (spreadVectors.map fun v => v.score) = 3/50 := by
    norm_num [popVariance, listMean, spreadVectors]
  rw [hlhs, hpv]
  have h0 : (0:ℝ) ≤ ((3/50 : ℚ) : ℝ) := by norm_num
  set s : ℝ := Real.sqrt ((3/50 : ℚ)) with hs
  have hs2 : s ^ 2 = 3/50 := by
    rw [hs, Real.sq_sqrt h0]
    norm_num
  have hsnn : 0 ≤ s := Real.sqrt_nonneg _
  have hslo : 244/1000 < s := by nlinarith
  have hshi : s < 245/1000 := by nlinarith
  rw [max_eq_right (by nlinarith)]
  have h := pythonRound3_eq_high (1 - s/2) 877 (by push_cast; nlinarith)
    (by push_cast; nlinarith)
  rw [h]
  push_cast
  norm_num

/-- The spec's worked example: two unweighted vectors scored 0.9 and 0.85. -/
def exampleVectors : List VotingVector :=
  [⟨"environmental_impact", 9/10, none⟩, ⟨"health_benefit", 17/20, none⟩]

/-- Stakeholders for the worked example (ignored by every computed field). -/
def exampleVoters : List VoterWeight :=
  [⟨"env_agency", none, 35/100⟩, ⟨"health_dept", none, 30/100⟩, ⟨"public", none, 35/100⟩]

lemma exampleVectors_ne_nil : exampleVectors ≠ [] := by decide

lemma exampleVectors_aggregate : calculate_aggregate_score exampleVectors = 7/8 := by
  simp only [calculate_aggregate_score]
  rw [if_neg exampleVectors_ne_nil]
  norm_num [exampleVectors, listMean]

lemma exampleVectors_consensus (voters : List VoterWeight) :
    calculate_consensus exampleVectors voters = 982 / 1000 := by
  rw [calculate_consensus_of_mean_ne_zero exampleVectors voters (by decide)
    (by norm_num [exampleVectors, listMean])]
  have hsv : sampleVariance (exampleVectors.map fun v => v.score) = 1/800 := by
    norm_num [sampleVariance, listMean, exampleVectors]
  set s : ℝ := stdev (exampleVectors.map fun v => v.score) with hs
  have hs2 : s ^ 2 = 1/800 := by
    rw [hs, stdev, hsv, Real.sq_sqrt (by norm_num : (0:ℝ) ≤ ((1/800 : ℚ) : ℝ))]
    norm_num
  have hsnn : 0 ≤ s := Real.sqrt_nonneg _
  have hslo : 35/1000 < s := by nlinarith
  have hshi : s < 36/1000 := by nlinarith
  rw [max_eq_right (by nlinarith)]
  have h := pythonRound3_eq_low (1 - s/2) 982 (by push_cast; nlinarith)
    (by push_cast; nlinarith)
  rw [h]
  push_cast
  norm_num

/-- C5: the spec's worked example — two unweighted vectors scored 0.9 and
0.85 yield aggregate_score = 0.875, voter_consensus = 0.982 (from the
standard deviation of [0.9, 0.85]) and recommendation APPROVE. -/
theorem example_vote_aggregation :
    (aggregate_votes "city-eco-001" exampleVoters exampleVectors).aggregate_score = 7/8 ∧
    (aggregate_votes "city-eco-001" exampleVoters exampleVectors).voter_consensus
      = 982/1000 ∧
    (aggregate_votes "city-eco-001" exampleVoters exampleVectors).recommendation
      = "APPROVE" := by
  have hagg : ((calculate_aggregate_score exampleVectors : ℚ) : ℝ) = 7/8 := by
    rw [exampleVectors_aggregate]
    norm_num
  have hcons := exampleVectors_consensus exampleVoters
  refine ⟨?_, ?_, ?_⟩
  · show ((calculate_aggregate_score exampleVectors : ℚ) : ℝ) = 7/8
    exact hagg
  · show calculate_consensus exampleVectors exampleVoters = 982/1000
    exact hcons
  · show generate_recommendation ((calculate_aggregate_score exampleVectors : ℚ))
      (calculate_consensus exampleVectors exampleVoters) = "APPROVE"
    rw [hagg, hcons, generate_recommendation]
    rw [if_pos ⟨by norm_num, by norm_num⟩]

lemma listMean_bounds (xs : List ℚ) (hne : xs ≠ [])
    (h : ∀ x ∈ xs, -1 ≤ x ∧ x ≤ 1) : -1 ≤ listMean xs ∧ listMean xs ≤ 1 := by
  have hlen : 0 < (xs.length : ℚ) := by
    exact_mod_cast List.length_pos.mpr hne
  have hup : xs.sum ≤ (xs.length : ℚ) := by
    have := List.sum_le_card_nsmul xs 1 (fun x hx => (h x hx).2)
    simpa using this
  have hlo : -(xs.length : ℚ) ≤ xs.sum := by
    have := List.card_nsmul_le_sum xs (-1) (fun x hx => (h x hx).1)
    simpa using this
  constructor
  · rw [listMean, le_div_iff₀ hlen]
    linarith
  · rw [listMean, div_le_one hlen]
    exact hup

lemma weighted_sum_bounds (vs : List VotingVector)
    (hs : ∀ v ∈ vs, -1 ≤ v.score ∧ v.score ≤ 1)
    (hw : ∀ v ∈ vs, ∀ w ∈ v.weight, 0 ≤ w) :
    -(vs.map fun v => orOne v.weight).sum
        ≤ (vs.map fun v => v.score * orOne v.weight).sum ∧
    (vs.map fun v => v.score * orOne v.weight).sum
        ≤ (vs.map fun v => orOne v.weight).sum := by
  induction vs with
  | nil => simp
  | cons a l ih =>
    have ha := hs a (by simp)
    have hae : 0 ≤ orOne a.weight :=
      (orOne_pos a.weight (fun x hx => hw a (by simp) x hx)).le
    have ihl := ih (fun v hv => hs v (by simp [hv])) (fun v hv => hw v (by simp [hv]))
    simp only [List.map_cons, List.sum_cons]
    constructor
    · have h1 : -(orOne a.weight) ≤ a.score * orOne a.weight := by nlinarith [ha.1]
      linarith [ihl.1]
    · have h2 : a.score * orOne a.weight ≤ orOne a.weight := by nlinarith [ha.2]
      linarith [ihl.2]

lemma aggregate_score_bounds (vs : List VotingVector)
    (hs : ∀ v ∈ vs, -1 ≤ v.score ∧ v.score ≤ 1)
    (hw : ∀ v ∈ vs, ∀ w ∈ v.weight, 0 ≤ w) :
    -1 ≤ calculate_aggregate_score vs ∧ calculate_aggregate_score vs ≤ 1 := by
  by_cases hne : vs = []
  · subst hne
    norm_num [calculate_aggregate_score]
  simp only [calculate_aggregate_score]
  rw [if_neg hne]
  by_cases h : vs.any (fun v => v.weight.isSome)
  · rw [if_pos h]
    have htot := sum_orOne_pos vs hne hw
    rw [if_pos htot]
    have hb := weighted_sum_bounds vs hs hw
    constructor
    · rw [le_div_iff₀ htot]
      linarith [hb.1]
    · rw [div_le_one htot]
      exact hb.2
  · rw [if_neg h]
    refine listMean_bounds _ (by simpa using hne) ?_
    intro x hx
    obtain ⟨v, hv, rfl⟩ := List.mem_map.mp hx
    exact hs v hv

/-- C6: for every schema-valid input (non-empty vectors, scores in [-1,1],
per-vector weights in [0,1] where present) the response satisfies
aggregate_score ∈ [-1,1], voter_consensus ∈ [0,1] and confidence ∈ [0,0.95]. -/
theorem response_ranges (policy_id : String) (voters : List VoterWeight)
    (vectors : List VotingVector) (_hne : vectors ≠ [])
    (hs : ∀ v ∈ vectors, -1 ≤ v.score ∧ v.score ≤ 1)
    (hw : ∀ v ∈ vectors, ∀ w ∈ v.weight, 0 ≤ w ∧ w ≤ 1) :
    (-1 ≤ (aggregate_votes policy_id voters vectors).aggregate_score ∧
      (aggregate_votes policy_id voters vectors).aggregate_score ≤ 1) ∧
    (0 ≤ (aggregate_votes policy_id voters vectors).voter_consensus ∧
      (aggregate_votes policy_id voters vectors).voter_consensus ≤ 1) ∧
    (0 ≤ (aggregate_votes policy_id voters vectors).confidence ∧
      (aggregate_votes policy_id voters vectors).confidence ≤ 95/100) := by
  have hagg := aggregate_score_bounds vectors hs (fun v hv w hw' => (hw v hv w hw').1)
  have hcons := calculate_consensus_mem vectors voters
  refine ⟨⟨?_, ?_⟩, ⟨hcons.1, hcons.2⟩, ⟨?_, ?_⟩⟩
  · show (-1:ℝ) ≤ ((calculate_aggregate_score vectors : ℚ) : ℝ)
    exact_mod_cast hagg.1
  · show ((calculate_aggregate_score vectors : ℚ) : ℝ) ≤ 1
    exact_mod_cast hagg.2
  · show (0:ℝ) ≤ min (95/100) (1/2 + calculate_consensus vectors voters * (45/100))
    refine le_min (by norm_num) ?_
    nlinarith [hcons.1]
  · show min ((95:ℝ)/100) (1/2 + calculate_consensus vectors voters * (45/100)) ≤ 95/100
    exact min_le_left _ _

/-- A single schema-valid vector, used to witness C6. -/
def singleVector : List VotingVector := [⟨"environmental_impact", 9/10, none⟩]

/-- Witness for C6 at the one-vector input scored 0.9. -/
theorem response_ranges_witness :
    (singleVector ≠ [] ∧ (∀ v ∈ singleVector, -1 ≤ v.score ∧ v.score ≤ 1) ∧
      (∀ v ∈ singleVector, ∀ w ∈ v.weight, 0 ≤ w ∧ w ≤ 1)) ∧
    ((-1 ≤ (aggregate_votes "p-001" [] singleVector).aggregate_score ∧
      (aggregate_votes "p-001" [] singleVector).aggregate_score ≤ 1) ∧
    (0 ≤ (aggregate_votes "p-001" [] singleVector).voter_consensus ∧
      (aggregate_votes "p-001" [] singleVector).voter_consensus ≤ 1) ∧
    (0 ≤ (aggregate_votes "p-001" [] singleVector).confidence ∧
      (aggregate_votes "p-001" [] singleVector).confidence ≤ 95/100)) :=
  ⟨⟨by decide, by norm_num [singleVector], by simp [singleVector]⟩,
   response_ranges "p-001" [] singleVector (by decide) (by norm_num [singleVector])
     (by simp [singleVector])⟩

/-- C10: for every input the confidence equals exactly
`0.5 + 0.45 * voter_consensus` (the min(0.95, ·) cap never binds, because
consensus never exceeds 1) and therefore lies in [0.5, 0.95]. -/
theorem confidence_formula (policy_id : String) (voters : List VoterWeight)
    (vectors : List VotingVector) :
    (aggregate_votes policy_id voters vectors).confidence
      = 1/2 + (aggregate_votes policy_id voters vectors).voter_consensus * (45/100) ∧
    1/2 ≤ (aggregate_votes policy_id voters vectors).confidence ∧
    (aggregate_votes policy_id voters vectors).confidence ≤ 95/100 := by
  have hc := calculate_consensus_mem vectors voters
  have hmin : min ((95:ℝ)/100) (1/2 + calculate_consensus vectors voters * (45/100))
      = 1/2 + calculate_consensus vectors voters * (45/100) :=
    min_eq_right (by nlinarith [hc.2])
  refine ⟨?_, ?_, ?_⟩
  · show min ((95:ℝ)/100) (1/2 + calculate_consensus vectors voters * (45/100))
        = 1/2 + calculate_consensus vectors voters * (45/100)
    exact hmin
  · show (1:ℝ)/2 ≤ min (95/100) (1/2 + calculate_consensus vectors voters * (45/100))
    rw [hmin]
    nlinarith [hc.1]
  · show min ((95:ℝ)/100) (1/2 + calculate_consensus vectors voters * (45/100)) ≤ 95/100
    exact min_le_left _ _

end Enviro
